import Mathlib

/-!
Verification development for the MotoPick typed variable-access layer
(`src/MotoPick/grpc_client.py`, class `GrpcClient`).

The Python module is shallowly embedded:
* Python scalar values become the inductive `PyValue` (Python floats are
  modelled as exact rationals);
* Python dicts with string keys become insertion-ordered association lists
  with `dictGet`/`dictSet` carrying Python dict semantics (update in place,
  append new keys at the end);
* the protobuf tagged union becomes `WireValue`;
* raised Python exceptions become `Except PyErr`;
* the remote gRPC transport is an oracle parameter: each live call receives
  the outcome (`Except`) that the stub call would have produced.

Three module-level names of the source are never bound anywhere in the
module: `GRPC_AVAILABLE` (tested at lines 42 and 108), `plcnext_pb2`
(lines 123, 152, 177-178 and 228) and `plcnext_pb2_grpc` (line 102).  The
embedding models the first two as explicit unbound bindings
(`GRPC_AVAILABLE_binding`, `plcnext_pb2_binding`), whose evaluation raises
NameError:
* `grpc_client_init` raises for every address (line 42 sits outside the
  try block);
* `is_connected_prop` is the faithful `is_connected` property of line 108:
  Python's `and` short-circuits, so the property returns False when
  `_connected` is false and raises NameError when `_connected` is true;
* `read_single_call`, `read_multiple_call` and `write_single_call` are the
  faithful methods: they evaluate the property first (lines 112, 140 and
  169, all outside any try) and propagate its NameError on connected
  states;
* `create_typed_value` evaluates `plcnext_pb2.TypedValue()` (line 228)
  inside its own try and therefore logs and re-raises NameError for every
  input; the alias table and auto-detect chain after it transcribe lines
  229-258, reachable only were the name bound.
The uses of `plcnext_pb2` inside the read/write try blocks (lines 123, 152,
177-178) and of `plcnext_pb2_grpc` inside the guarded `_connect` call are
subsumed by the corresponding exception oracles.
The Bool-valued `is_connected` and the functions `read_single`,
`read_multiple` and `write_single` describe the method bodies under an
already-resolved property value.  On every state with `connected = false`
they agree exactly with the faithful `_call` functions, because the
property short-circuits before touching the unbound name; the
simulated-mode claims are stated over those states.
-/

namespace MotoPick

/-- A Python scalar value as handled by the client: None, bool, int,
float (modelled as an exact rational) or str. -/
inductive PyValue where
  | none
  | bool (b : Bool)
  | int (i : Int)
  | float (q : ℚ)
  | str (s : String)
  deriving DecidableEq, Repr

/-- A raised Python exception, by class and message. -/
inductive PyErr where
  | nameError (msg : String)
  | valueError (msg : String)
  | typeError (msg : String)
  | rpcError (msg : String)
  deriving DecidableEq, Repr

/-- Model of Python `str(e)` on an exception object. -/
def pyErrStr : PyErr → String
  | .nameError m => "name " ++ m ++ " is not defined"
  | .valueError m => m
  | .typeError m => m
  | .rpcError m => m

/-- A Python dict with string keys, in insertion order. -/
abbrev PyDict := List (String × PyValue)

/-- Python `d.get(k, None)` as an `Option`: the first entry with key `k`. -/
def dictGet (d : PyDict) (k : String) : Option PyValue :=
  match d with
  | [] => Option.none
  | (k', v) :: rest => if k' = k then some v else dictGet rest k

/-- Python `d[k] = v`: overwrite in place if present, else append. -/
def dictSet (d : PyDict) (k : String) (v : PyValue) : PyDict :=
  match d with
  | [] => [(k, v)]
  | (k', v') :: rest => if k' = k then (k, v) :: rest else (k', v') :: dictSet rest k v

/-! ## The simulated variable space (`GrpcClient._init_sim_data`) -/

/-- Python `f"\x7bi:02d\x7d"`: two-digit zero-padded decimal rendering. -/
def pad2 (i : Nat) : String :=
  if i < 10 then "0" ++ toString i else toString i

/-- The seven fixed system variables (source lines 53-62). -/
def systemVars : PyDict :=
  [ ("Arp.Plc.Eclr/MotoPick.System.Running", .bool false),
    ("Arp.Plc.Eclr/MotoPick.System.Connected", .bool false),
    ("Arp.Plc.Eclr/MotoPick.System.Error", .bool false),
    ("Arp.Plc.Eclr/MotoPick.System.ErrorCode", .int 0),
    ("Arp.Plc.Eclr/MotoPick.System.PicksPerMinute", .float 0),
    ("Arp.Plc.Eclr/MotoPick.System.TotalPicks", .int 0),
    ("Arp.Plc.Eclr/MotoPick.System.MissedItems", .int 0) ]

/-- The ten per-robot fields for robot `i` (source lines 65-78). -/
def robotVars (i : Nat) : PyDict :=
  let p := "Arp.Plc.Eclr/MotoPick.Robot" ++ pad2 i
  [ (p ++ ".Enabled", .bool (decide (i ≤ 2))),
    (p ++ ".Running", .bool false),
    (p ++ ".Error", .bool false),
    (p ++ ".ErrorCode", .int 0),
    (p ++ ".PicksPerMinute", .float 0),
    (p ++ ".TotalPicks", .int 0),
    (p ++ ".Efficiency", .float 0),
    (p ++ ".X", .float 0),
    (p ++ ".Y", .float 0),
    (p ++ ".Z", .float 0) ]

/-- The six per-conveyor fields for conveyor `i` (source lines 81-90). -/
def conveyorVars (i : Nat) : PyDict :=
  let p := "Arp.Plc.Eclr/MotoPick.Conveyor" ++ pad2 i
  [ (p ++ ".Enabled", .bool (decide (i ≤ 2))),
    (p ++ ".Running", .bool false),
    (p ++ ".Speed", .float 0),
    (p ++ ".ActualSpeed", .float 0),
    (p ++ ".ItemsDetected", .int 0),
    (p ++ ".ItemsLeft", .int 0) ]

/-- `GrpcClient._init_sim_data` (source lines 51-92): the seven system
variables, then the fields of robots 1..8, then those of conveyors 1..16,
in source order.  All keys are fresh, so `dict.update` is list append. -/
def init_sim_data : PyDict :=
  systemVars
    ++ ((List.range 8).map (fun j => robotVars (j + 1))).flatten
    ++ ((List.range 16).map (fun j => conveyorVars (j + 1))).flatten

/-- Injective fingerprint of an ASCII string (base-257 digit fold); proof
device used to decide key distinctness over fast kernel naturals. -/
def strFp (s : String) : Nat :=
  s.data.foldl (fun a c => a * 257 + c.toNat) 0

/-! ## Models of the Python builtins used by the marshalling code -/

/-- Python truthiness, as applied by the builtin `bool(value)`. -/
def pyBool : PyValue → Bool
  | .none => false
  | .bool b => b
  | .int i => decide (i ≠ 0)
  | .float q => decide (q ≠ 0)
  | .str s => decide (s ≠ "")

/-- Whitespace as recognised by Python's numeric-literal stripping. -/
def isPySpace (c : Char) : Bool :=
  c = ' ' ∨ c = '\t' ∨ c = '\n' ∨ c = '\r'

/-- Strip leading and trailing whitespace from a character list. -/
def trimChars (cs : List Char) : List Char :=
  ((cs.dropWhile isPySpace).reverse.dropWhile isPySpace).reverse

/-- Parse a non-empty all-digit character list as a natural number. -/
def digitsToNat? (cs : List Char) : Option Nat :=
  if cs.isEmpty then Option.none
  else if cs.all Char.isDigit then
    some (cs.foldl (fun a c => a * 10 + (c.toNat - 48)) 0)
  else Option.none

/-- Optional sign followed by decimal digits, as an integer. -/
def intOfChars? (cs : List Char) : Option Int :=
  match cs with
  | '-' :: rest => (digitsToNat? rest).map (fun n => -(n : Int))
  | '+' :: rest => (digitsToNat? rest).map (fun n => (n : Int))
  | _ => (digitsToNat? cs).map (fun n => (n : Int))

/-- Model of the Python builtin `int(s)` on a string: optional surrounding
whitespace, optional sign, decimal digits; anything else raises ValueError. -/
def pyIntOfStr (s : String) : Except PyErr Int :=
  match intOfChars? (trimChars s.data) with
  | some i => .ok i
  | Option.none =>
      .error (.valueError ("invalid literal for int with base 10: " ++ s))

/-- Truncation toward zero, as the Python builtin `int(float)` does. -/
def ratTruncToInt (q : ℚ) : Int :=
  if q < 0 then -(⌊-q⌋) else ⌊q⌋

/-- Model of the Python builtin `int(value)` on a scalar. -/
def pyInt : PyValue → Except PyErr Int
  | .bool b => .ok (if b then 1 else 0)
  | .int i => .ok i
  | .float q => .ok (ratTruncToInt q)
  | .str s => pyIntOfStr s
  | .none => .error (.typeError "int argument must not be None")

/-- Split a character list at its first dot, when one is present. -/
def splitDot : List Char → List Char × Option (List Char)
  | [] => ([], Option.none)
  | c :: rest =>
      if c = '.' then ([], some rest)
      else
        let p := splitDot rest
        (c :: p.1, p.2)

/-- Unsigned decimal mantissa with an optional fractional part. -/
def decimalMag? (cs : List Char) : Option ℚ :=
  match splitDot cs with
  | (ip, Option.none) => (digitsToNat? ip).map (fun n => (n : ℚ))
  | (ip, some fr) =>
      if ip.isEmpty ∧ fr.isEmpty then Option.none
      else
        match (if ip.isEmpty then some 0 else digitsToNat? ip),
              (if fr.isEmpty then some 0 else digitsToNat? fr) with
        | some n, some f =>
            some ((n : ℚ) + (f : ℚ) / ((10 : ℚ) ^ fr.length))
        | _, _ => Option.none

/-- Model of the Python builtin `float(s)` on a string: optional sign,
decimal digits with an optional fractional part.  (Python accepts a few
further forms - exponents, inf/nan - that no claim exercises.) -/
def pyFloatOfStr (s : String) : Except PyErr ℚ :=
  let t := trimChars s.data
  let res : Option ℚ :=
    match t with
    | '-' :: rest => (decimalMag? rest).map (fun q => -q)
    | '+' :: rest => decimalMag? rest
    | _ => decimalMag? t
  match res with
  | some q => .ok q
  | Option.none =>
      .error (.valueError ("could not convert string to float: " ++ s))

/-- Model of the Python builtin `float(value)` on a scalar. -/
def pyFloat : PyValue → Except PyErr ℚ
  | .bool b => .ok (if b then 1 else 0)
  | .int i => .ok (i : ℚ)
  | .float q => .ok q
  | .str s => pyFloatOfStr s
  | .none => .error (.typeError "float argument must not be None")

/-- Rendering of a rational standing in for a Python float.  Exact for
integral values (Python prints "1.0"); other values keep the fraction form.
No claim evaluates this on a non-integral value. -/
def ratStr (q : ℚ) : String :=
  if q.den = 1 then toString q.num ++ ".0" else toString q.num ++ "/" ++ toString q.den

/-- Model of the Python builtin `str(value)` on a scalar. -/
def pyStr : PyValue → String
  | .none => "None"
  | .bool b => if b then "True" else "False"
  | .int i => toString i
  | .float q => ratStr q
  | .str s => s

/-! ## The protobuf tagged union and value decoding -/

/-- The tagged-union wire value of the data-access protocol
(`TypedValue` / the oneof inside a `DataItem`). -/
inductive WireValue where
  | boolValue (b : Bool)
  | int8Value (i : Int)
  | int16Value (i : Int)
  | int32Value (i : Int)
  | int64Value (i : Int)
  | uint8Value (i : Int)
  | uint16Value (i : Int)
  | uint32Value (i : Int)
  | uint64Value (i : Int)
  | floatValue (q : ℚ)
  | doubleValue (q : ℚ)
  | stringValue (s : String)
  | unset
  deriving DecidableEq, Repr

/-- Whether a wire value carries one of the integer tags. -/
def WireValue.isIntTag : WireValue → Bool
  | .int8Value _ | .int16Value _ | .int32Value _ | .int64Value _
  | .uint8Value _ | .uint16Value _ | .uint32Value _ | .uint64Value _ => true
  | _ => false

/-- One item of a wire reply: the port name reported by the remote end and
its tagged value. -/
structure DataItem where
  portName : String
  value : WireValue
  deriving DecidableEq, Repr

/-- Round-half-even at integer precision, as the Python builtin `round`
behaves on exact values. -/
def rhe (y : ℚ) : ℤ :=
  if y - ⌊y⌋ < 1 / 2 then ⌊y⌋
  else if 1 / 2 < y - ⌊y⌋ then ⌊y⌋ + 1
  else if ⌊y⌋ % 2 = 0 then ⌊y⌋ else ⌊y⌋ + 1

/-- Python `round(x, 6)` on an exact value: round-half-even at the sixth
decimal fractional digit. -/
def round6 (q : ℚ) : ℚ :=
  ((rhe (q * 1000000) : ℚ)) / 1000000

/-- `GrpcClient._extract_value` (source lines 190-223): decode a wire item
by its tag; float and double tags are rounded to 6 decimal digits, an unset
tag decodes to None.  The source's defensive try/except cannot fire in the
model (attribute access is total). -/
def extract_value (item : DataItem) : PyValue :=
  match item.value with
  | .boolValue b => .bool b
  | .int8Value i => .int i
  | .int16Value i => .int i
  | .int32Value i => .int i
  | .int64Value i => .int i
  | .uint8Value i => .int i
  | .uint16Value i => .int i
  | .uint32Value i => .int i
  | .uint64Value i => .int i
  | .floatValue q => .float (round6 q)
  | .doubleValue q => .float (round6 q)
  | .stringValue s => .str s
  | .unset => .none

/-! ## Typed-value encoding (`GrpcClient._create_typed_value`) -/

/-- Protobuf assignment `typed.int16Value = i`: range-checked by the
protobuf runtime, raising ValueError outside the signed 16-bit range. -/
def assignInt16 (i : Int) : Except PyErr WireValue :=
  if -32768 ≤ i ∧ i < 32768 then .ok (.int16Value i)
  else .error (.valueError "Value out of range: int16")

/-- Protobuf assignment `typed.int32Value = i` (signed 32-bit range). -/
def assignInt32 (i : Int) : Except PyErr WireValue :=
  if -2147483648 ≤ i ∧ i < 2147483648 then .ok (.int32Value i)
  else .error (.valueError "Value out of range: int32")

/-- Protobuf assignment `typed.uint16Value = i` (unsigned 16-bit range). -/
def assignUInt16 (i : Int) : Except PyErr WireValue :=
  if 0 ≤ i ∧ i < 65536 then .ok (.uint16Value i)
  else .error (.valueError "Value out of range: uint16")

/-- Protobuf assignment `typed.uint32Value = i` (unsigned 32-bit range). -/
def assignUInt32 (i : Int) : Except PyErr WireValue :=
  if 0 ≤ i ∧ i < 4294967296 then .ok (.uint32Value i)
  else .error (.valueError "Value out of range: uint32")

/-- Python `isinstance(value, bool)`. -/
def isinstanceBool : PyValue → Bool
  | .bool _ => true
  | _ => false

/-- Python `isinstance(value, int)`: true for bools as well, because bool
is a subclass of int in Python. -/
def isinstanceInt : PyValue → Bool
  | .bool _ => true
  | .int _ => true
  | _ => false

/-- Python `isinstance(value, float)` (a Python bool is not a float). -/
def isinstanceFloat : PyValue → Bool
  | .float _ => true
  | _ => false

/-- Untyped protobuf bool assignment `typed.boolValue = value` as used in
the auto-detect branch (only reached when `value` is a bool). -/
def rawBool : PyValue → Bool
  | .bool b => b
  | _ => false

/-- Untyped protobuf int assignment `typed.int32Value = value` in the
auto-detect branch (bools coerce to 0/1; only bool/int reach it). -/
def rawInt : PyValue → Int
  | .bool b => if b then 1 else 0
  | .int i => i
  | _ => 0

/-- Untyped protobuf double assignment `typed.doubleValue = value` in the
auto-detect branch (only floats reach it). -/
def rawFloat : PyValue → ℚ
  | .float q => q
  | _ => 0

/-- Model of Python `s.upper()` for the ASCII declared-type names. -/
def pyUpper (s : String) : String :=
  ⟨s.data.map Char.toUpper⟩

/-- The declared-type names recognised by the alias table of
`_create_typed_value` (after uppercasing); any other declared type falls
through to auto-detection. -/
def recognizedTypeNames : List String :=
  ["BOOL", "INT", "INT16", "DINT", "INT32", "UINT", "UINT16",
   "UDINT", "UINT32", "LREAL", "DOUBLE", "FLOAT64", "REAL", "FLOAT",
   "STRING", "WSTRING"]

/-- The binding of the module-level name `plcnext_pb2` in `grpc_client.py`:
the module imports the message classes from `pxc_grpc...` under other names
and never assigns `plcnext_pb2`, so the name is unbound. -/
def plcnext_pb2_binding : Option Unit := Option.none

/-- `GrpcClient._create_typed_value` (source lines 225-261): the try block
first evaluates `plcnext_pb2.TypedValue()` (line 228) - with the name
unbound this raises NameError, which the except clause at lines 259-261
logs and re-raises, for every input.  The rest transcribes lines 229-258:
coercion under a case-insensitive declared type, with unrecognised declared
types (the default AUTO included) auto-detecting by the value's own kind,
bool before int before float, stringified fallback; that chain is reachable
only were the name bound.  Any exception is logged and re-raised
(`Except.error` here). -/
def create_typed_value (value : PyValue) (data_type : String) : Except PyErr WireValue :=
  match plcnext_pb2_binding with
  | Option.none => .error (.nameError "plcnext_pb2")
  | Option.some _ =>
  let dt := pyUpper data_type
  if dt = "BOOL" then .ok (.boolValue (pyBool value))
  else if dt = "INT" ∨ dt = "INT16" then do assignInt16 (← pyInt value)
  else if dt = "DINT" ∨ dt = "INT32" then do assignInt32 (← pyInt value)
  else if dt = "UINT" ∨ dt = "UINT16" then do assignUInt16 (← pyInt value)
  else if dt = "UDINT" ∨ dt = "UINT32" then do assignUInt32 (← pyInt value)
  else if dt = "LREAL" ∨ dt = "DOUBLE" ∨ dt = "FLOAT64" then do
    pure (.doubleValue (← pyFloat value))
  else if dt = "REAL" ∨ dt = "FLOAT" then do
    pure (.floatValue (← pyFloat value))
  else if dt = "STRING" ∨ dt = "WSTRING" then .ok (.stringValue (pyStr value))
  else if isinstanceBool value then .ok (.boolValue (rawBool value))
  else if isinstanceInt value then assignInt32 (rawInt value)
  else if isinstanceFloat value then .ok (.doubleValue (rawFloat value))
  else .ok (.stringValue (pyStr value))

/-- Decidable equality of call outcomes, for concrete evaluation. -/
instance instDecEqExcept {ε α : Type} [DecidableEq ε] [DecidableEq α] :
    DecidableEq (Except ε α) := fun x y =>
  match x, y with
  | .ok a, .ok b =>
      if h : a = b then .isTrue (congrArg Except.ok h)
      else .isFalse (fun hh => h (Except.ok.inj hh))
  | .error a, .error b =>
      if h : a = b then .isTrue (congrArg Except.error h)
      else .isFalse (fun hh => h (Except.error.inj hh))
  | .ok _, .error _ => .isFalse (fun hh => Except.noConfusion hh)
  | .error _, .ok _ => .isFalse (fun hh => Except.noConfusion hh)

/-! ## The client and its operations -/

/-- The state of a `GrpcClient` instance: the constructor arguments and
fields that the read/write paths consult.  `grpcAvailable` is the value the
`is_connected` property is taken to have resolved to in the Bool-valued
method bodies; it is irrelevant on `connected = false` states, where the
property short-circuits (see the header comment), and the faithful `_call`
functions never read it. -/
structure Client where
  address : String
  connected : Bool
  grpcAvailable : Bool
  simData : PyDict
  deriving DecidableEq, Repr

/-- The binding of the module-level name `GRPC_AVAILABLE` in
`grpc_client.py`: the module never assigns it, so it is unbound. -/
def GRPC_AVAILABLE_binding : Option Bool := Option.none

/-- `GrpcClient.__init__` (source lines 35-49): set up the fields, then
test the module global `GRPC_AVAILABLE` (line 42); if it is truthy, attempt
`_connect` and swallow any exception, leaving `_connected` false.
Evaluating an unbound module global raises NameError, and line 42 sits
outside the try block.  `connectOutcome` is the transport oracle for the
`_connect` attempt. -/
def grpc_client_init (address : String) (connectOutcome : Except PyErr Unit) :
    Except PyErr Client :=
  let simData := init_sim_data
  match GRPC_AVAILABLE_binding with
  | Option.none => .error (.nameError "GRPC_AVAILABLE")
  | Option.some ga =>
      if ga then
        match connectOutcome with
        | .ok _ => .ok { address, connected := true, grpcAvailable := ga, simData }
        | .error _ => .ok { address, connected := false, grpcAvailable := ga, simData }
      else .ok { address, connected := false, grpcAvailable := ga, simData }

/-- The faithful `is_connected` property (source lines 106-108):
`self._connected and GRPC_AVAILABLE` with Python short-circuit.  When
`_connected` is false the `and` never evaluates its right operand and the
property is False; when `_connected` is true the property evaluates the
unbound module global and raises NameError. -/
def is_connected_prop (connected : Bool) : Except PyErr Bool :=
  if connected then
    match GRPC_AVAILABLE_binding with
    | Option.none => .error (.nameError "GRPC_AVAILABLE")
    | Option.some ga => .ok ga
  else .ok false

/-- The `is_connected` property under an already-resolved property value:
`connected && grpcAvailable`.  Exact on every state with `connected =
false`, where `is_connected_prop` short-circuits to the same False; the
simulated-mode claims are stated over those states. -/
def is_connected (c : Client) : Bool :=
  c.connected && c.grpcAvailable

/-- The body of `GrpcClient.read_single` (source lines 112-136) given the
value `conn` the `is_connected` test of line 112 resolved to.  The result
dict is returned together with the (unchanged) client state; `oracle` is
the outcome of the live try block, including any exception raised inside
it (such as the NameError from `plcnext_pb2.ReadRequest` at line 123). -/
def read_single_branches (c : Client) (conn : Bool) (port_name : String)
    (oracle : Except PyErr (List DataItem)) : PyDict × Client :=
  if !conn then
    ([("port_name", .str port_name),
      ("value", (dictGet c.simData port_name).getD .none),
      ("success", .bool true),
      ("simulated", .bool true)], c)
  else
    match oracle with
    | .ok (item :: _) =>
        ([("port_name", .str port_name),
          ("value", extract_value item),
          ("success", .bool true),
          ("simulated", .bool false)], c)
    | .ok [] =>
        ([("port_name", .str port_name),
          ("value", .none),
          ("success", .bool false)], c)
    | .error e =>
        ([("port_name", .str port_name),
          ("value", .none),
          ("success", .bool false),
          ("error", .str (pyErrStr e))], c)

/-- `GrpcClient.read_single` under a resolved `is_connected` value (exact
on `connected = false` states); `read_single_call` is the faithful entry
point. -/
def read_single (c : Client) (port_name : String)
    (oracle : Except PyErr (List DataItem)) : PyDict × Client :=
  read_single_branches c (is_connected c) port_name oracle

/-- `GrpcClient.read_single`, faithful entry point: line 112 evaluates the
`is_connected` property outside any try, so its NameError propagates out
of the method on every state with `_connected` true. -/
def read_single_call (c : Client) (port_name : String)
    (oracle : Except PyErr (List DataItem)) : Except PyErr (PyDict × Client) :=
  (is_connected_prop c.connected).map
    (fun conn => read_single_branches c conn port_name oracle)

/-- The body of `GrpcClient.read_multiple` (source lines 140-165) given
the resolved `is_connected` value of line 140.  In simulation, one
absent-tolerant lookup per requested name in request order; in live mode
the reply's items determine the result set, each keyed by the item's own
reported name; on an exception inside the try, one failed envelope per
requested name carrying the shared error text. -/
def read_multiple_branches (c : Client) (conn : Bool) (port_names : List String)
    (oracle : Except PyErr (List DataItem)) : List PyDict × Client :=
  if !conn then
    (port_names.map (fun name =>
      [("port_name", .str name),
       ("value", (dictGet c.simData name).getD .none),
       ("success", .bool true),
       ("simulated", .bool true)]), c)
  else
    match oracle with
    | .ok items =>
        (items.map (fun item =>
          [("port_name", .str item.portName),
           ("value", extract_value item),
           ("success", .bool true),
           ("simulated", .bool false)]), c)
    | .error e =>
        (port_names.map (fun name =>
          [("port_name", .str name),
           ("value", .none),
           ("success", .bool false),
           ("error", .str (pyErrStr e))]), c)

/-- `GrpcClient.read_multiple` under a resolved `is_connected` value
(exact on `connected = false` states); `read_multiple_call` is the
faithful entry point. -/
def read_multiple (c : Client) (port_names : List String)
    (oracle : Except PyErr (List DataItem)) : List PyDict × Client :=
  read_multiple_branches c (is_connected c) port_names oracle

/-- `GrpcClient.read_multiple`, faithful entry point: line 140 evaluates
the `is_connected` property outside any try. -/
def read_multiple_call (c : Client) (port_names : List String)
    (oracle : Except PyErr (List DataItem)) : Except PyErr (List PyDict × Client) :=
  (is_connected_prop c.connected).map
    (fun conn => read_multiple_branches c conn port_names oracle)

/-- The body of `GrpcClient.write_single` (source lines 169-183) given the
resolved `is_connected` value of line 169.  In simulation the value is
stored unconditionally and the call reports success; in the live branch an
exception from `_create_typed_value` or from the rest of the try block
(oracle) yields false. -/
def write_single_branches (c : Client) (conn : Bool) (port_name : String)
    (value : PyValue) (data_type : String) (writeOutcome : Except PyErr Unit) :
    Bool × Client :=
  if !conn then
    (true, { c with simData := dictSet c.simData port_name value })
  else
    match create_typed_value value data_type with
    | .error _ => (false, c)
    | .ok _ =>
        match writeOutcome with
        | .ok _ => (true, c)
        | .error _ => (false, c)

/-- `GrpcClient.write_single` under a resolved `is_connected` value (exact
on `connected = false` states); `write_single_call` is the faithful entry
point. -/
def write_single (c : Client) (port_name : String) (value : PyValue)
    (data_type : String) (writeOutcome : Except PyErr Unit) : Bool × Client :=
  write_single_branches c (is_connected c) port_name value data_type writeOutcome

/-- `GrpcClient.write_single`, faithful entry point: line 169 evaluates
the `is_connected` property outside the try. -/
def write_single_call (c : Client) (port_name : String) (value : PyValue)
    (data_type : String) (writeOutcome : Except PyErr Unit) :
    Except PyErr (Bool × Client) :=
  (is_connected_prop c.connected).map
    (fun conn => write_single_branches c conn port_name value data_type writeOutcome)

/-! ## Concrete client states used as evaluation fixtures -/

/-- A client that fell back to simulated mode (the state `__init__` is
meant to produce when no controller is reachable). -/
def simClientW : Client :=
  { address := "unix:///run/plcnext/grpc.sock", connected := false,
    grpcAvailable := false, simData := init_sim_data }

/-- A client holding a live channel (the live paths never touch the
simulated store, kept empty here). -/
def liveClientW : Client :=
  { address := "192.168.1.10:50051", connected := true,
    grpcAvailable := true, simData := [] }

/-! # Helper lemmas -/

theorem dictGet_dictSet_self (d : PyDict) (k : String) (v : PyValue) :
    dictGet (dictSet d k v) k = some v := by
  induction d with
  | nil => simp [dictGet, dictSet]
  | cons hd tl ih =>
    obtain ⟨k', v'⟩ := hd
    by_cases h : k' = k <;> simp [dictGet, dictSet, h, ih]

theorem dictGet_dictSet_ne (d : PyDict) (k k' : String) (v : PyValue) (h : k' ≠ k) :
    dictGet (dictSet d k v) k' = dictGet d k' := by
  induction d with
  | nil => simp [dictGet, dictSet, Ne.symm h]
  | cons hd tl ih =>
    obtain ⟨k0, v0⟩ := hd
    by_cases h0 : k0 = k
    · subst h0
      simp [dictGet, dictSet, Ne.symm h]
    · simp only [dictSet, if_neg h0]
      by_cases h1 : k0 = k'
      · simp [dictGet, h1]
      · simp [dictGet, h1, ih]

theorem is_connected_set_simData (c : Client) (d : PyDict) :
    is_connected { c with simData := d } = is_connected c := rfl

theorem rhe_abs_le (y : ℚ) : |((rhe y : ℤ) : ℚ) - y| ≤ 1 / 2 := by
  have h0 : ((⌊y⌋ : ℤ) : ℚ) ≤ y := Int.floor_le y
  have h1 : y < ⌊y⌋ + 1 := Int.lt_floor_add_one y
  unfold rhe
  split_ifs with ha hb hc <;> rw [abs_le] <;> constructor <;> push_cast <;> linarith

/-! # Claims -/

/-- C1: the claim says constructing the client never raises for any address,
with connection failures swallowed into simulated mode.  The code violates
this: line 42 of `grpc_client.py` evaluates the module global
`GRPC_AVAILABLE`, which is never assigned anywhere in the module, outside
any try block, so `__init__` raises NameError for every address and every
connection outcome. -/
theorem constructor_raises_nameError :
    ∀ (address : String) (connectOutcome : Except PyErr Unit),
      grpc_client_init address connectOutcome
        = .error (.nameError "GRPC_AVAILABLE") :=
  fun _ _ => rfl

set_option maxRecDepth 100000 in
/-- C2 counterexample: a live-mode `read_single` call returns no result at
all - line 112 evaluates the `is_connected` property outside any try and
its NameError (unbound `GRPC_AVAILABLE`) propagates out of the method -
while a simulated-mode call returns the four-field tagged envelope; so the
claim that every call, in either mode, returns a result of the same shape
is false at this explicit input. -/
theorem read_single_live_returns_no_envelope :
    read_single_call liveClientW "X" (.ok [])
        = .error (.nameError "GRPC_AVAILABLE") ∧
    read_single_call simClientW "X" (.ok [])
        = .ok ([("port_name", .str "X"), ("value", .none),
                ("success", .bool true), ("simulated", .bool true)],
               simClientW) := by
  constructor
  · rfl
  · decide

/-- C2 amended: every call made in simulated mode (`_connected` false)
returns a result of one fixed shape - `read_single` the four fields
port_name, value, success, simulated, and `write_single` a bare boolean
success - but a call made on a connected state never returns a result at
all: it raises NameError out of the `is_connected` property before
reaching either result path. -/
theorem read_write_envelope_shape (c : Client) (n : String)
    (oracle : Except PyErr (List DataItem)) (v : PyValue) (dt : String)
    (out : Except PyErr Unit) :
    (c.connected = false →
       ∃ d, read_single_call c n oracle = .ok (d, c) ∧
         d.map Prod.fst = ["port_name", "value", "success", "simulated"]) ∧
    (c.connected = true →
       read_single_call c n oracle = .error (.nameError "GRPC_AVAILABLE")) ∧
    (c.connected = false →
       write_single_call c n v dt out
         = .ok (true, { c with simData := dictSet c.simData n v })) ∧
    (c.connected = true →
       write_single_call c n v dt out = .error (.nameError "GRPC_AVAILABLE")) := by
  refine ⟨fun h => ⟨[("port_name", .str n),
                     ("value", (dictGet c.simData n).getD .none),
                     ("success", .bool true), ("simulated", .bool true)],
                    ?_, by simp⟩,
          fun h => ?_, fun h => ?_, fun h => ?_⟩ <;>
    simp [read_single_call, write_single_call, is_connected_prop,
      GRPC_AVAILABLE_binding, read_single_branches, write_single_branches,
      Except.map, h]

/-- C2 amended witness: the simulated-mode envelope shape and the
connected-state NameError at concrete clients. -/
theorem read_write_envelope_shape_witness :
    (∃ d, read_single_call simClientW "X" (.ok []) = .ok (d, simClientW) ∧
       d.map Prod.fst = ["port_name", "value", "success", "simulated"]) ∧
    read_single_call liveClientW "X" (.ok [])
      = .error (.nameError "GRPC_AVAILABLE") :=
  ⟨(read_write_envelope_shape simClientW "X" (.ok []) (.int 0) "AUTO" (.ok ())).1
     rfl,
   (read_write_envelope_shape liveClientW "X" (.ok []) (.int 0) "AUTO" (.ok ())).2.1
     rfl⟩

/-- C3: in simulated mode, `write_single n v` reports success and a
subsequent `read_single n` returns exactly `v` with success and the
simulated tag, for every name, every scalar value, every declared type and
every oracle. -/
theorem sim_write_read_roundtrip (c : Client) (h : is_connected c = false)
    (n : String) (v : PyValue) (dt : String) (out : Except PyErr Unit)
    (oracle : Except PyErr (List DataItem)) :
    (write_single c n v dt out).1 = true ∧
    (read_single (write_single c n v dt out).2 n oracle).1
      = [("port_name", .str n), ("value", v),
         ("success", .bool true), ("simulated", .bool true)] := by
  constructor
  · simp [write_single, write_single_branches, h]
  · simp [write_single, write_single_branches, read_single,
          read_single_branches, h, is_connected_set_simData,
          dictGet_dictSet_self]

set_option maxRecDepth 100000 in
/-- C3 witness: the spec scenario, writing 42 to "X.Y" on a simulated
client and reading it back. -/
theorem sim_write_read_roundtrip_witness :
    (write_single simClientW "X.Y" (.int 42) "AUTO" (.ok ())).1 = true ∧
    (read_single (write_single simClientW "X.Y" (.int 42) "AUTO" (.ok ())).2
        "X.Y" (.ok [])).1
      = [("port_name", .str "X.Y"), ("value", .int 42),
         ("success", .bool true), ("simulated", .bool true)] :=
  sim_write_read_roundtrip simClientW rfl "X.Y" (.int 42) "AUTO" (.ok ()) (.ok [])

/-- C4: in simulated mode a name absent from the store reads back as
success with an absent value, never as a failure. -/
theorem sim_read_missing_key (c : Client) (h : is_connected c = false)
    (n : String) (hmiss : dictGet c.simData n = Option.none)
    (oracle : Except PyErr (List DataItem)) :
    (read_single c n oracle).1
      = [("port_name", .str n), ("value", .none),
         ("success", .bool true), ("simulated", .bool true)] := by
  simp [read_single, read_single_branches, h, hmiss]

set_option maxRecDepth 100000 in
/-- C4 witness: a key outside the default topology on the default store. -/
theorem sim_read_missing_key_witness :
    (read_single simClientW "No.Such.Key" (.ok [])).1
      = [("port_name", .str "No.Such.Key"), ("value", .none),
         ("success", .bool true), ("simulated", .bool true)] :=
  sim_read_missing_key simClientW rfl "No.Such.Key" (by decide) (.ok [])

set_option maxRecDepth 1000000 in
set_option maxHeartbeats 4000000 in
/-- C5: the default simulated variable space has exactly 183 pairwise
distinct keys - 7 system variables, 10 fields for each robot 1..8 and 6
fields for each conveyor 1..16, indices two-digit zero-padded; the Enabled
fields of units 1 and 2 of each kind are the only values defaulting to
true, and every value is true, false, integer zero or float zero. -/
theorem init_sim_data_topology :
    init_sim_data.length = 183 ∧
    systemVars.length = 7 ∧
    (∀ i ∈ List.range 8, (robotVars (i + 1)).length = 10) ∧
    (∀ i ∈ List.range 16, (conveyorVars (i + 1)).length = 6) ∧
    (init_sim_data.map Prod.fst).Nodup ∧
    (∀ i ∈ List.range 8,
       dictGet init_sim_data ("Arp.Plc.Eclr/MotoPick.Robot" ++ pad2 (i + 1) ++ ".Enabled")
         = some (.bool (decide (i + 1 ≤ 2)))) ∧
    (∀ i ∈ List.range 16,
       dictGet init_sim_data ("Arp.Plc.Eclr/MotoPick.Conveyor" ++ pad2 (i + 1) ++ ".Enabled")
         = some (.bool (decide (i + 1 ≤ 2)))) ∧
    ((init_sim_data.filter (fun kv => decide (kv.2 = PyValue.bool true))).map Prod.fst
       = ["Arp.Plc.Eclr/MotoPick.Robot01.Enabled",
          "Arp.Plc.Eclr/MotoPick.Robot02.Enabled",
          "Arp.Plc.Eclr/MotoPick.Conveyor01.Enabled",
          "Arp.Plc.Eclr/MotoPick.Conveyor02.Enabled"]) ∧
    (∀ kv ∈ init_sim_data, kv.2 = PyValue.bool true ∨ kv.2 = PyValue.bool false ∨
       kv.2 = PyValue.int 0 ∨ kv.2 = PyValue.float 0) :=
  ⟨by decide, by decide, by decide, by decide,
   List.Nodup.of_map strFp (by decide),
   by decide, by decide, by decide, by decide⟩

/-- C6: the claim says encoding under AUTO (or any unrecognised declared
type) selects the wire kind by the application value's own kind, boolean
first.  The code cannot do this for any input: the first statement of the
try, `typed = plcnext_pb2.TypedValue()` (line 228), evaluates the unbound
module name `plcnext_pb2`, and that NameError is logged and re-raised at
lines 259-261, so `_create_typed_value` never produces any wire value -
even though the branch chain of lines 247-256 (transcribed inside
`create_typed_value`) shows the claimed bool-int-float-string priority is
the intent. -/
theorem encoder_raises_nameError_for_every_input :
    ∀ (value : PyValue) (data_type : String),
      create_typed_value value data_type = .error (.nameError "plcnext_pb2") :=
  fun _ _ => rfl

/-- C7: the claim says a coercion failure in live mode makes
`write_single` return false rather than raising.  The code raises instead:
line 169 evaluates the `is_connected` property outside the try, and on a
connected state the property's NameError (unbound `GRPC_AVAILABLE`)
propagates out of `write_single` before the encoding step is ever
reached. -/
theorem live_write_single_raises_nameError (c : Client)
    (h : c.connected = true) (n : String) (v : PyValue) (dt : String)
    (out : Except PyErr Unit) :
    write_single_call c n v dt out = .error (.nameError "GRPC_AVAILABLE") := by
  simp [write_single_call, is_connected_prop, GRPC_AVAILABLE_binding,
    Except.map, h]

/-- C7 witness: the spec scenario's input "abc" under declared type DINT at
a concrete connected client. -/
theorem live_write_single_raises_nameError_witness :
    write_single_call liveClientW "P" (.str "abc") "DINT" (.ok ())
      = .error (.nameError "GRPC_AVAILABLE") :=
  live_write_single_raises_nameError liveClientW rfl "P" (.str "abc") "DINT"
    (.ok ())

/-- C8: the claim describes live `read_multiple` results keyed per reply
item, with per-name failure envelopes on a transport exception (lines
151-165).  The code never reaches those lines: line 140 evaluates the
`is_connected` property outside the try, and on a connected state its
NameError (unbound `GRPC_AVAILABLE`) propagates out of `read_multiple`
before either branch, so no result list is returned for any request or
reply. -/
theorem live_read_multiple_raises_nameError (c : Client)
    (h : c.connected = true) (names : List String)
    (oracle : Except PyErr (List DataItem)) :
    read_multiple_call c names oracle = .error (.nameError "GRPC_AVAILABLE") := by
  simp [read_multiple_call, is_connected_prop, GRPC_AVAILABLE_binding,
    Except.map, h]

/-- C8 witness: a concrete connected client, a two-name request and a
one-item reply. -/
theorem live_read_multiple_raises_nameError_witness :
    read_multiple_call liveClientW ["a", "b"] (.ok [⟨"b", .boolValue true⟩])
      = .error (.nameError "GRPC_AVAILABLE") :=
  live_read_multiple_raises_nameError liveClientW rfl ["a", "b"]
    (.ok [⟨"b", .boolValue true⟩])

/-- C9: decoding a float or double wire value rounds it to six decimal
fractional digits (the decoded value is an integer multiple of 10^-6
within half of 10^-6 of the wire value); decoding the double 1.0000005
yields 1.0 under the round-half-even boundary rule. -/
theorem float_decode_six_digit_rounding :
    (∀ (nm : String) (q : ℚ), ∃ n : ℤ,
       extract_value ⟨nm, .doubleValue q⟩ = .float ((n : ℚ) / 1000000) ∧
       |((n : ℚ) / 1000000) - q| ≤ 1 / 2000000) ∧
    (∀ (nm : String) (q : ℚ), ∃ n : ℤ,
       extract_value ⟨nm, .floatValue q⟩ = .float ((n : ℚ) / 1000000) ∧
       |((n : ℚ) / 1000000) - q| ≤ 1 / 2000000) ∧
    (extract_value ⟨"Port", .doubleValue (10000005 / 10000000)⟩ = .float 1 ∨
     extract_value ⟨"Port", .doubleValue (10000005 / 10000000)⟩
       = .float (1000001 / 1000000)) := by
  have key : ∀ q : ℚ, |((rhe (q * 1000000) : ℤ) : ℚ) / 1000000 - q| ≤ 1 / 2000000 := by
    intro q
    have h := rhe_abs_le (q * 1000000)
    have heq : ((rhe (q * 1000000) : ℤ) : ℚ) / 1000000 - q
        = (((rhe (q * 1000000) : ℤ) : ℚ) - q * 1000000) / 1000000 := by ring
    rw [heq, abs_div, abs_of_pos (by norm_num : (0 : ℚ) < 1000000),
      show (1 : ℚ) / 2000000 = (1 / 2) / 1000000 by norm_num]
    gcongr
  refine ⟨fun nm q => ⟨rhe (q * 1000000), rfl, key q⟩,
          fun nm q => ⟨rhe (q * 1000000), rfl, key q⟩,
          Or.inl ?_⟩
  norm_num [extract_value, round6, rhe]

/-- C10: simulated-mode operations touch only the in-memory store: reads
leave the client unchanged, and a write changes the entry for the written
key only, leaving every other key and every other client field as it was. -/
theorem sim_frame_conditions (c : Client) (h : is_connected c = false)
    (n k : String) (hk : k ≠ n) (v : PyValue) (dt : String)
    (out : Except PyErr Unit) (o1 o2 : Except PyErr (List DataItem))
    (names : List String) :
    (read_single c n o1).2 = c ∧
    (read_multiple c names o2).2 = c ∧
    (write_single c n v dt out).1 = true ∧
    (write_single c n v dt out).2.address = c.address ∧
    (write_single c n v dt out).2.connected = c.connected ∧
    (write_single c n v dt out).2.grpcAvailable = c.grpcAvailable ∧
    dictGet (write_single c n v dt out).2.simData n = some v ∧
    dictGet (write_single c n v dt out).2.simData k = dictGet c.simData k := by
  refine ⟨?_, ?_, ?_, ?_, ?_, ?_, ?_, ?_⟩ <;>
    simp [read_single, read_multiple, write_single, read_single_branches,
      read_multiple_branches, write_single_branches, h,
      dictGet_dictSet_self, dictGet_dictSet_ne _ _ _ _ hk]

/-- C10 witness: the frame condition for an untouched key at a concrete
simulated client. -/
theorem sim_frame_conditions_witness :
    dictGet (write_single simClientW "A" (.int 1) "AUTO" (.ok ())).2.simData "B"
      = dictGet simClientW.simData "B" :=
  (sim_frame_conditions simClientW rfl "A" "B" (by decide) (.int 1) "AUTO"
      (.ok ()) (.ok []) (.ok []) []).2.2.2.2.2.2.2

end MotoPick
